import Mathlib

/-!
# als-verify: the reconciliation loop of `main` and the haversine distance

A shallow embedding of `src/main.go`.

* The program text (`degreesToRadians`, `calculateDistance`, `searchPlace`, the loop of
  `main`) is written once, over an arbitrary carrier `F` for Go's `float64`, with the
  functions of the Go standard library it calls taken as parameters: `math.Pi`, `math.Sin`,
  `math.Cos`, `math.Sqrt`, `math.Atan2` as `GoMath F`, and `fmt.Sprintf("%.3f", ·)` as
  `Sprintf3 : F → String`. These definitions are executable for every executable carrier.
* The location service is outside the program: `locClient i` is what the service answers
  to the call made for the record at position `i` (an error message, or a list of results).
  The fields of a result that `searchPlace` dereferences or indexes are optional, and
  `searchPlace` panics where the Go code does; a panic ends `main` without any output.
* The carrier is instantiated twice. `float64` with `go64` is IEEE-754 binary64 arithmetic
  (round to nearest, ties to even) with the portable Go implementations of `math.Sin`,
  `math.Cos`, `math.Atan2`, a correctly rounded `math.Sqrt` and `fmt.Sprintf3` for the
  formatter: it is what the program computes, NaN included. `ℝ` with `realLib` is the
  formula that the program evaluates, read in exact arithmetic; it is used where a
  statement is about that value.
-/

namespace AlsVerify

/-! ## Library and service interfaces -/

/-- The constant and the functions of Go's `math` package that `calculateDistance` and
`degreesToRadians` call. -/
structure GoMath (F : Type) where
  Pi : F
  Sin : F → F
  Cos : F → F
  Sqrt : F → F
  Atan2 : F → F → F

/-- The SDK's `types.PlaceGeometry`, reduced to `Point []float64`. -/
structure PlaceGeometry (F : Type) where
  Point : List F

/-- The SDK's `types.Place`, reduced to the two pointer fields that `searchPlace` reads:
`Geometry *PlaceGeometry` and `Label *string`; `none` is the nil pointer. -/
structure Place (F : Type) where
  Geometry : Option (PlaceGeometry F)
  Label : Option String

/-- One entry of `output.Results` of `SearchPlaceIndexForText` (the SDK's
`types.SearchForTextResult`), reduced to the two pointer fields that `searchPlace` reads:
`Place *Place` and `Relevance *float64`; `none` is the nil pointer. -/
structure SearchForTextResult (F : Type) where
  Place : Option (Place F)
  Relevance : Option F

/-- What one call `locClient.SearchPlaceIndexForText(ctx, &input)` does for a given text:
it fails with an error (kept as its message) or returns `output.Results`. -/
abbrev SearchCall (F : Type) := String → Except String (List (SearchForTextResult F))

/-- How a Go function with a result and an `error` ends: it returns the result with a nil
error, it returns a non-nil error (kept as its message), or it panics. -/
inductive GoResult (α : Type) where
  | ok (a : α)
  | error (err : String)
  | panic

/-- The function returned with a nil error. -/
def GoResult.isOk {α : Type} : GoResult α → Bool
  | .ok _ => true
  | _ => false

/-- The function returned a non-nil error. -/
def GoResult.isError {α : Type} : GoResult α → Bool
  | .error _ => true
  | _ => false

/-! ## Types of `main.go` -/

/-- Go `type AppConfig struct`. -/
structure AppConfig (F : Type) where
  ALSRegion : String
  MapIndex : String
  Countries : List String
  ConfidenceThreshold : F
  InputFile : String
  OutputFile : String

/-- Go `type dataIn struct`. -/
structure dataIn (F : Type) where
  Text : String
  Lat : F
  Long : F

/-- Go `type dataOut struct`. `Index` is a slice index, hence a natural number. -/
structure dataOut (F : Type) where
  Index : Nat
  InputText : String
  InputLat : F
  InputLong : F
  OutputText : String
  OutputLat : F
  OutputLong : F
  Confidence : F
  Distance : String
  Status : String
deriving DecidableEq

/-- Go `type dataErr struct`. -/
structure dataErr where
  Index : Nat
  Text : String
  Error : String
deriving DecidableEq, Repr

/-- The two slices `output` and `outputErr` that the loop of `main` appends to. -/
structure Streams (F : Type) where
  output : List (dataOut F)
  outputErr : List dataErr
deriving DecidableEq

section Program

variable {F : Type} [Add F] [Sub F] [Mul F] [Div F] [NatCast F]

/-! ## Utils -/

/-- Go `const earthRadius = 6371`. -/
def earthRadius : Nat := 6371

/-- Go `degreesToRadians`: `degrees * math.Pi / 180`. -/
def degreesToRadians (lib : GoMath F) (degrees : F) : F :=
  degrees * lib.Pi / ((180 : Nat) : F)

/-- The haversine term `a` of `calculateDistance` (lines 289-300). -/
def haversineA (lib : GoMath F) (lat1 lon1 lat2 lon2 : F) : F :=
  let lat1Rad := degreesToRadians lib lat1
  let lon1Rad := degreesToRadians lib lon1
  let lat2Rad := degreesToRadians lib lat2
  let lon2Rad := degreesToRadians lib lon2
  let deltaLat := lat2Rad - lat1Rad
  let deltaLon := lon2Rad - lon1Rad
  lib.Sin (deltaLat / ((2 : Nat) : F)) * lib.Sin (deltaLat / ((2 : Nat) : F)) +
    lib.Cos lat1Rad * lib.Cos lat2Rad *
      lib.Sin (deltaLon / ((2 : Nat) : F)) * lib.Sin (deltaLon / ((2 : Nat) : F))

/-- Go `calculateDistance`: with `a` the haversine term,
`c := 2 * math.Atan2(math.Sqrt(a), math.Sqrt(1-a))` and `distance := earthRadius * c`. -/
def calculateDistance (lib : GoMath F) (lat1 lon1 lat2 lon2 : F) : F :=
  let a := haversineA lib lat1 lon1 lat2 lon2
  let c := ((2 : Nat) : F) * lib.Atan2 (lib.Sqrt a) (lib.Sqrt (((1 : Nat) : F) - a))
  ((earthRadius : Nat) : F) * c

/-! ## The provider call -/

/-- Go `searchPlace`. The error of the call is returned as it is (lines 201-205); an empty
`Results` is the error `"no result found"` (lines 206-210). Otherwise lines 211-214 read the
first result in this order: `*Relevance`, `*Place.Label`, `Place.Geometry.Point[1]` (the
latitude) and `Place.Geometry.Point[0]` (the longitude); a nil pointer among them, or a
`Point` with fewer than two elements, is a run-time panic. -/
def searchPlace (call : SearchCall F) (text : String) : GoResult (String × F × F × F) :=
  match call text with
  | .error err => .error err
  | .ok [] => .error "no result found"
  | .ok (r :: _) =>
    match r.Relevance with
    | none => .panic
    | some confidence =>
      match r.Place with
      | none => .panic
      | some place =>
        match place.Label with
        | none => .panic
        | some label =>
          match place.Geometry with
          | none => .panic
          | some geometry =>
            match geometry.Point with
            | long :: lat :: _ => .ok (label, confidence, lat, long)
            | _ => .panic

/-! ## The loop of `main` -/

variable [LT F] [∀ a b : F, Decidable (a < b)]

/-- The body of `for i, v := range input` (lines 44-81). `err` is the outer variable `err`
of `main`, the one that `if err == nil` on line 52 reads (the `err` declared on line 53 is
a new variable of the inner block). `Sprintf3 d` stands for `fmt.Sprintf("%.3f", d)`. The
result is `none` when `searchPlace` panics: nothing in `main` recovers. -/
def loopBody (lib : GoMath F) (Sprintf3 : F → String) (appConfig : AppConfig F)
    (locClient : Nat → SearchCall F)
    (err : Option String) (i : Nat) (v : dataIn F) (s : Streams F) : Option (Streams F) :=
  let data : dataOut F :=
    { Index := i, InputText := v.Text, InputLat := v.Lat, InputLong := v.Long,
      OutputText := "", OutputLat := ((0 : Nat) : F), OutputLong := ((0 : Nat) : F),
      Confidence := ((0 : Nat) : F), Distance := "", Status := "OK" }
  if err = none then
    match searchPlace (locClient i) v.Text with
    | .panic => none
    | .error e =>
      -- append to outputErr; continue
      some { s with outputErr := s.outputErr ++ [{ Index := i, Text := v.Text, Error := e }] }
    | .ok (label, confidence, lat, long) =>
      let data := if confidence < appConfig.ConfidenceThreshold
        then { data with Status := "LOW CONFIDENCE" } else data
      let distance := calculateDistance lib v.Lat v.Long lat long
      let distanceFormated := Sprintf3 distance
      let data := { data with OutputText := label, OutputLat := lat, OutputLong := long,
                              Confidence := confidence, Distance := distanceFormated }
      some { s with output := s.output ++ [data] }
  else
    some { s with output := s.output ++ [data] }

/-- The loop `for i, v := range input`, started at position `i` on the remaining records;
`none` when a pass panics. -/
def mainLoop (lib : GoMath F) (Sprintf3 : F → String) (appConfig : AppConfig F)
    (locClient : Nat → SearchCall F)
    (err : Option String) : Nat → List (dataIn F) → Streams F → Option (Streams F)
  | _, [], s => some s
  | i, v :: rest, s =>
    match loopBody lib Sprintf3 appConfig locClient err i v s with
    | none => none
    | some s' => mainLoop lib Sprintf3 appConfig locClient err (i + 1) rest s'

/-- Go `main` from the return of `readInput` on: `readInput` has given `(input, err)`.
A non-nil `err` ends the process (`log.Fatalln`) and so does a panic in the loop: both are
`none`, nothing is written. Otherwise the loop runs from empty slices and `main` hands
`output` and `outputErr` to the two writers. -/
def main (lib : GoMath F) (Sprintf3 : F → String) (appConfig : AppConfig F)
    (locClient : Nat → SearchCall F)
    (input : List (dataIn F)) (err : Option String) : Option (Streams F) :=
  if err ≠ none then none
  else mainLoop lib Sprintf3 appConfig locClient err 0 input { output := [], outputErr := [] }

/-- Whether the provider call that the loop makes for position `j` of `input` succeeds
(`searchPlace` returns a nil error). -/
def resolves (locClient : Nat → SearchCall F) (input : List (dataIn F)) (j : Nat) : Bool :=
  match input[j]? with
  | some v => (searchPlace (locClient j) v.Text).isOk
  | none => false

/-- Whether the provider call that the loop makes for position `j` of `input` fails
(`searchPlace` returns a non-nil error). -/
def fails (locClient : Nat → SearchCall F) (input : List (dataIn F)) (j : Nat) : Bool :=
  match input[j]? with
  | some v => (searchPlace (locClient j) v.Text).isError
  | none => false

/-- A result carries everything that lines 211-214 read: `Relevance`, `Place`,
`Place.Label`, `Place.Geometry` and a `Point` of at least two elements. -/
def complete (r : SearchForTextResult F) : Bool :=
  match r.Relevance, r.Place with
  | some _, some place =>
    match place.Label, place.Geometry with
    | some _, some geometry =>
      match geometry.Point with
      | _ :: _ :: _ => true
      | _ => false
    | _, _ => false
  | _, _ => false

/-- Every answer of the provider to a call that the loop makes on `input` is an error, an
empty result list, or a list whose first result is complete. -/
def answersComplete (locClient : Nat → SearchCall F) (input : List (dataIn F)) : Prop :=
  ∀ (i : Nat) (v : dataIn F), input[i]? = some v →
    ∀ (r : SearchForTextResult F) (rs : List (SearchForTextResult F)),
      locClient i v.Text = .ok (r :: rs) → complete r = true

end Program

/-! ## The mathematical reading of the library -/

/-- The two-argument arctangent on the reals, by the case analysis of Go's `math.Atan2`
(`y = 0`, then `x = 0`, then the quadrant of `Atan(y / x)`). -/
noncomputable def realAtan2 (y x : ℝ) : ℝ :=
  if y = 0 then (if 0 ≤ x then 0 else Real.pi)
  else if x = 0 then (if 0 < y then Real.pi / 2 else -(Real.pi / 2))
  else
    let q := Real.arctan (y / x)
    if x < 0 then (if q ≤ 0 then q + Real.pi else q - Real.pi) else q

/-- The `math` package read over the reals: exact `π`, sine, cosine, square root and
two-argument arctangent. It has no rounding and no NaN: it gives the value of the formula,
not the binary64 result of the program, for which see `go64`. -/
noncomputable def realLib : GoMath ℝ :=
  { Pi := Real.pi, Sin := Real.sin, Cos := Real.cos, Sqrt := Real.sqrt,
    Atan2 := realAtan2 }

/-! ## Binary64 arithmetic

Go's `float64` is IEEE-754 binary64. A value is NaN, an infinity, or `± m · 2 ^ e` with
`m < 2 ^ 53` and `-1074 ≤ e ≤ 971`, kept in the unique form that the format encodes
(`2 ^ 52 ≤ m` unless `e = -1074`). Every operation computes the exact result on integers and
rounds it once, to nearest with ties to even, as the hardware does. -/

/-- The number of binary digits of `n`. -/
def bitLenAux : Nat → Nat → Nat → Nat
  | 0, _, acc => acc
  | fuel + 1, n, acc =>
    if n = 0 then acc
    else if 2 ^ 64 ≤ n then bitLenAux fuel (n / 2 ^ 64) (acc + 64)
    else bitLenAux fuel (n / 2) (acc + 1)

/-- The number of binary digits of `n` (`0` for `0`). -/
def bitLen (n : Nat) : Nat := bitLenAux n n 0

/-- The integer square root, one binary digit at a time from position `b - 1` down. -/
def natSqrtAux : Nat → Nat → Nat → Nat
  | 0, _, r => r
  | b + 1, n, r =>
    if (r + 2 ^ b) * (r + 2 ^ b) ≤ n then natSqrtAux b n (r + 2 ^ b) else natSqrtAux b n r

/-- The integer square root: the largest `r` with `r * r ≤ n`. -/
def natSqrt (n : Nat) : Nat := natSqrtAux (bitLen n / 2 + 1) n 0

/-- Go's `float64`: NaN, `±Inf`, or the finite value `(-1) ^ neg · m · 2 ^ e`. -/
inductive float64 where
  | nan
  | inf (neg : Bool)
  | fin (neg : Bool) (m : Nat) (e : Int)
deriving DecidableEq, Repr

namespace float64

/-- The zero of the given sign. -/
def zero (neg : Bool) : float64 := .fin neg 0 (-1074)

/-- Rounding to binary64, to nearest with ties to even, of the value `M · 2 ^ E` of sign
`neg`; `sticky` says that the exact value lies strictly above `M · 2 ^ E` and below
`(M + 1) · 2 ^ E` (callers that set it pass an `M` of at least 64 digits). -/
def roundEven (neg : Bool) (M : Nat) (E : Int) (sticky : Bool) : float64 :=
  if M = 0 then zero neg
  else
    let e : Int := max (E + (bitLen M : Int) - 53) (-1074)
    if e ≤ E then
      if 971 < e then .inf neg else .fin neg (M <<< (E - e).toNat) e
    else
      let sh := (e - E).toNat
      let q := M >>> sh
      let r := M % 2 ^ sh
      let half := 2 ^ (sh - 1)
      let up := decide (half < r) || (decide (r = half) && (sticky || q % 2 == 1))
      let q := if up then q + 1 else q
      if q = 2 ^ 53 then (if 971 < e + 1 then .inf neg else .fin neg (2 ^ 52) (e + 1))
      else if 971 < e then .inf neg
      else .fin neg q e

/-- Conversion of a non-negative integer constant or value. -/
def ofNat (n : Nat) : float64 := roundEven false n 0 false

/-- The binary64 value of the decimal constant `m · 10 ^ (-e)` (`s` true) or `m · 10 ^ e`
(`s` false): Go converts a constant exactly and rounds once. -/
def ofScientific (m : Nat) (s : Bool) (e : Nat) : float64 :=
  if s then
    let d := 10 ^ e
    let k := bitLen d + 64
    roundEven false ((m <<< k) / d) (-(k : Int)) ((m <<< k) % d != 0)
  else roundEven false (m * 10 ^ e) 0 false

/-- Unary minus: the sign is flipped. -/
def neg : float64 → float64
  | .nan => .nan
  | .inf s => .inf (!s)
  | .fin s m e => .fin (!s) m e

/-- Multiplication. -/
def mul : float64 → float64 → float64
  | .nan, _ => .nan
  | _, .nan => .nan
  | .inf s, .inf t => .inf (s != t)
  | .inf s, .fin t n _ => if n = 0 then .nan else .inf (s != t)
  | .fin s m _, .inf t => if m = 0 then .nan else .inf (s != t)
  | .fin s m e, .fin t n f => roundEven (s != t) (m * n) (e + f) false

/-- Addition. An exact zero sum of opposite signs is `+0`. -/
def add : float64 → float64 → float64
  | .nan, _ => .nan
  | _, .nan => .nan
  | .inf s, .inf t => if s = t then .inf s else .nan
  | .inf s, .fin _ _ _ => .inf s
  | .fin _ _ _, .inf t => .inf t
  | .fin s m e, .fin t n f =>
    let g := min e f
    let a := m <<< (e - g).toNat
    let b := n <<< (f - g).toNat
    if s = t then roundEven s (a + b) g false
    else if a = b then zero false
    else if b < a then roundEven s (a - b) g false
    else roundEven t (b - a) g false

/-- Subtraction. -/
def sub (x y : float64) : float64 := add x (neg y)

/-- Division. -/
def div : float64 → float64 → float64
  | .nan, _ => .nan
  | _, .nan => .nan
  | .inf _, .inf _ => .nan
  | .inf s, .fin t _ _ => .inf (s != t)
  | .fin s _ _, .inf t => zero (s != t)
  | .fin s m e, .fin t n f =>
    if n = 0 then (if m = 0 then .nan else .inf (s != t))
    else
      let k := bitLen n + 64
      roundEven (s != t) ((m <<< k) / n) (e - f - (k : Int)) ((m <<< k) % n != 0)

/-- The correctly rounded square root; NaN on a negative argument other than `-0`. -/
def sqrt : float64 → float64
  | .nan => .nan
  | .inf s => if s then .nan else .inf false
  | .fin s m e =>
    if m = 0 then .fin s m e
    else if s then .nan
    else
      let k := 128 + e.natAbs % 2
      let M := m <<< k
      let r := natSqrt M
      roundEven false r ((e - (k : Int)) / 2) (r * r != M)

/-- The signed integer `± m · 2 ^ (e - g)`, for comparing finite values at a common
exponent `g ≤ e`. -/
def scaled (s : Bool) (m : Nat) (e g : Int) : Int :=
  if s then -((m <<< (e - g).toNat : Nat) : Int) else ((m <<< (e - g).toNat : Nat) : Int)

/-- Go's `x < y`: false when either side is NaN. -/
def lt : float64 → float64 → Bool
  | .nan, _ => false
  | _, .nan => false
  | .inf s, .inf t => s && !t
  | .inf s, .fin _ _ _ => s
  | .fin _ _ _, .inf t => !t
  | .fin s m e, .fin t n f => decide (scaled s m e (min e f) < scaled t n f (min e f))

/-- Go's `x == y`: false when either side is NaN, true between `+0` and `-0`. -/
def eq : float64 → float64 → Bool
  | .nan, _ => false
  | _, .nan => false
  | .inf s, .inf t => s == t
  | .inf _, .fin _ _ _ => false
  | .fin _ _ _, .inf _ => false
  | .fin s m e, .fin t n f => decide (scaled s m e (min e f) = scaled t n f (min e f))

/-- Go's `x <= y`. -/
def le (x y : float64) : Bool := lt x y || eq x y

/-- Go's `uint64(x)` for a non-negative finite `x` below `2 ^ 64`: truncation. -/
def toUint64 : float64 → Nat
  | .fin false m e => if 0 ≤ e then m <<< e.toNat else m >>> (-e).toNat
  | _ => 0

end float64

instance : Add float64 := ⟨float64.add⟩

instance : Sub float64 := ⟨float64.sub⟩

instance : Mul float64 := ⟨float64.mul⟩

instance : Div float64 := ⟨float64.div⟩

instance : Neg float64 := ⟨float64.neg⟩

instance : NatCast float64 := ⟨float64.ofNat⟩

instance (n : Nat) : OfNat float64 n := ⟨float64.ofNat n⟩

instance : OfScientific float64 := ⟨float64.ofScientific⟩

instance : LT float64 := ⟨fun x y => float64.lt x y = true⟩

instance : LE float64 := ⟨fun x y => float64.le x y = true⟩

instance (x y : float64) : Decidable (x < y) :=
  inferInstanceAs (Decidable (float64.lt x y = true))

instance (x y : float64) : Decidable (x ≤ y) :=
  inferInstanceAs (Decidable (float64.le x y = true))

/-! ## Go's `math` package on binary64

After the portable Go sources `math/sin.go`, `math/trig_reduce.go`, `math/atan.go`,
`math/atan2.go`, `math/bits.go` and `math/unsafe.go`, each expression with the operation order
of the source and one rounding per operation (no fused multiply-add, as on amd64). -/

namespace math

/-- Go `math.Pi`, rounded to binary64 where it meets a `float64`. -/
def Pi : float64 := 3.14159265358979323846264338327950288419716939937510582097494459

/-- The constant expression `4 / Pi` of `sin.go`, which Go evaluates exactly and rounds once. -/
def fourOverPi : float64 := 1.27323954473516268615107010698140931281

/-- The constant expression `3 * Pi / 4` of `atan2.go`, evaluated exactly and rounded once. -/
def threePiOver4 : float64 := 2.35619449019234492884698253745962716314787704953132936573120844

/-- Go `PI4A` of `sin.go`. -/
def PI4A : float64 := 7.85398125648498535156e-1

/-- Go `PI4B` of `sin.go`. -/
def PI4B : float64 := 3.77489470793079817668e-8

/-- Go `PI4C` of `sin.go`. -/
def PI4C : float64 := 2.69515142907905952645e-15

/-- Go `reduceThreshold = 1 << 29` of `trig_reduce.go`. -/
def reduceThreshold : float64 := ((2 ^ 29 : Nat) : float64)

/-- Go `math.Float64bits`. -/
def Float64bits : float64 → Nat
  | .nan => 0x7ff8000000000001
  | .inf s => (if s then 2 ^ 63 else 0) + 0x7ff0000000000000
  | .fin s m e =>
    (if s then 2 ^ 63 else 0) +
      (if 2 ^ 52 ≤ m then (e + 1075).toNat * 2 ^ 52 + (m - 2 ^ 52) else m)

/-- Go `math.Float64frombits`. -/
def Float64frombits (b : Nat) : float64 :=
  if (b / 2 ^ 52) % 2048 = 2047 then
    (if b % 2 ^ 52 = 0 then .inf (decide (2 ^ 63 ≤ b % 2 ^ 64)) else .nan)
  else if (b / 2 ^ 52) % 2048 = 0 then .fin (decide (2 ^ 63 ≤ b % 2 ^ 64)) (b % 2 ^ 52) (-1074)
  else
    .fin (decide (2 ^ 63 ≤ b % 2 ^ 64)) (b % 2 ^ 52 + 2 ^ 52)
      ((((b / 2 ^ 52) % 2048 : Nat) : Int) - 1075)

/-- Go `mPi4` of `trig_reduce.go`: the binary digits of `4/π` in 64-bit words. -/
def mPi4 : List Nat :=
  [0x0000000000000001, 0x45f306dc9c882a53, 0xf84eafa3ea69bb81, 0xb6c52b3278872083,
   0xfca2c757bd778ac3, 0x6e48dc74849ba5c0, 0x0c925dd413a32439, 0xfc3bd63962534e7d,
   0xd1046bea5d768909, 0xd338e04d68befc82, 0x7323ac7306a673e9, 0x3908bf177bf25076,
   0x3ff12fffbc0b301f, 0xde5e2316b414da3e, 0xda6cfd9e4f96136e, 0x9e8c7ecd3cbfd45a,
   0xea4f758fd7cbe2f6, 0x7a0e73ef14a525d4, 0xd7f6bf623f1aba10, 0xac06608df8f6d757]

/-- The 64-bit word `(mPi4[i] << bitshift) | (mPi4[i+1] >> (64 - bitshift))`. -/
def mPi4Digit (i bitshift : Nat) : Nat :=
  ((mPi4.getD i 0 <<< bitshift) % 2 ^ 64) ||| (mPi4.getD (i + 1) 0 >>> (64 - bitshift))

/-- Go `trigReduce` of `trig_reduce.go` (Payne-Hanek reduction by `Pi/4`) for `x > 0`: the
octant `j` and the reduced argument `z`, on 64-bit unsigned words. -/
def trigReduce (x : float64) : Nat × float64 :=
  if x < Pi / 4 then (0, x)
  else
    let ix := Float64bits x
    let exp : Int := (((ix >>> 52) &&& 0x7ff : Nat) : Int) - 1023 - 52
    let ix := (ix &&& (2 ^ 52 - 1)) ||| 2 ^ 52
    let digit := (exp + 61).toNat / 64
    let bitshift := (exp + 61).toNat % 64
    let z0 := mPi4Digit digit bitshift
    let z1 := mPi4Digit (digit + 1) bitshift
    let z2 := mPi4Digit (digit + 2) bitshift
    let z2hi := z2 * ix / 2 ^ 64
    let z1hi := z1 * ix / 2 ^ 64
    let z1lo := z1 * ix % 2 ^ 64
    let z0lo := z0 * ix % 2 ^ 64
    let lo := (z1lo + z2hi) % 2 ^ 64
    let c := (z1lo + z2hi) / 2 ^ 64
    let hi := (z0lo + z1hi + c) % 2 ^ 64
    let j := hi >>> 61
    let hi := ((hi <<< 3) % 2 ^ 64) ||| (lo >>> 61)
    let lz := 64 - bitLen hi
    let e := 1023 - (lz + 1)
    let hi := ((hi <<< (lz + 1)) % 2 ^ 64) ||| (if 64 < lz + 1 then 0 else lo >>> (64 - (lz + 1)))
    let hi := hi >>> (64 - 52)
    let hi := hi ||| (e <<< 52)
    let z := Float64frombits hi
    if j % 2 = 1 then ((j + 1) % 8, (z - 1) * (Pi / 4)) else (j, z * (Pi / 4))

/-- The octant `j` and the reduced argument `z` of `sin.go` for `0 ≤ x`: `trigReduce` at or
above `reduceThreshold`, otherwise `j = uint64(x * (4 / Pi))` made even and
`z = ((x - y*PI4A) - y*PI4B) - y*PI4C`. -/
def octant (x : float64) : Nat × float64 :=
  if reduceThreshold ≤ x then trigReduce x
  else
    let j := (x * fourOverPi).toUint64
    let y : float64 := (j : float64)
    let y := if j % 2 = 1 then y + 1 else y
    let j := if j % 2 = 1 then j + 1 else j
    (j % 8, ((x - y * PI4A) - y * PI4B) - y * PI4C)

/-- The sine branch of `sin.go`: `z + z*zz*(…_sin…)`. -/
def sinPoly (z zz : float64) : float64 :=
  z + z * zz * ((((((1.58962301576546568060e-10 * zz) + -2.50507477628578072866e-8) * zz +
    2.75573136213857245213e-6) * zz + -1.98412698295895385996e-4) * zz +
    8.33333333332211858878e-3) * zz + -1.66666666666666307295e-1)

/-- The cosine branch of `sin.go`: `1.0 - 0.5*zz + zz*zz*(…_cos…)`. -/
def cosPoly (zz : float64) : float64 :=
  1.0 - 0.5 * zz + zz * zz * ((((((-1.13585365213876817300e-11 * zz) +
    2.08757008419747316778e-9) * zz + -2.75573141792967388112e-7) * zz +
    2.48015872888517045348e-5) * zz + -1.38888888888730564116e-3) * zz +
    4.16666666666665929218e-2)

/-- Go `math.Sin` (`sin.go`, func `sin`). -/
def Sin (x : float64) : float64 :=
  match x with
  | .nan => .nan
  | .inf _ => .nan
  | .fin s m e =>
    if m = 0 then x
    else
      let jz := octant (.fin false m e)
      let sign := if 3 < jz.1 then !s else s
      let j := if 3 < jz.1 then jz.1 - 4 else jz.1
      let zz := jz.2 * jz.2
      let y := if j = 1 ∨ j = 2 then cosPoly zz else sinPoly jz.2 zz
      if sign then -y else y

/-- Go `math.Cos` (`sin.go`, func `cos`). -/
def Cos (x : float64) : float64 :=
  match x with
  | .nan => .nan
  | .inf _ => .nan
  | .fin _ m e =>
    let jz := octant (.fin false m e)
    let sign := decide (3 < jz.1)
    let j := if 3 < jz.1 then jz.1 - 4 else jz.1
    let sign := if 1 < j then !sign else sign
    let zz := jz.2 * jz.2
    let y := if j = 1 ∨ j = 2 then sinPoly jz.2 zz else cosPoly zz
    if sign then -y else y

/-- Go `math.Sqrt`: the correctly rounded square root. -/
def Sqrt (x : float64) : float64 := x.sqrt

/-- Go `Morebits` of `atan.go`. -/
def Morebits : float64 := 6.123233995736765886130e-17

/-- Go `Tan3pio8` of `atan.go`. -/
def Tan3pio8 : float64 := 2.41421356237309504880

/-- Go `xatan` of `atan.go`: the series on `[0, 0.66]`. -/
def xatan (x : float64) : float64 :=
  let z := x * x
  let z := z * ((((-8.750608600031904122785e-01 * z + -1.615753718733365076637e+01) * z +
      -7.500855792314704667340e+01) * z + -1.228866684490136173410e+02) * z +
      -6.485021904942025371773e+01) /
    (((((z + 2.485846490142306297962e+01) * z + 1.650270098316988542046e+02) * z +
      4.328810604912902668951e+02) * z + 4.853903996359136964868e+02) * z +
      1.945506571482613964425e+02)
  x * z + x

/-- Go `satan` of `atan.go`: reduction of a positive argument to `[0, 0.66]`. -/
def satan (x : float64) : float64 :=
  if x ≤ 0.66 then xatan x
  else if Tan3pio8 < x then Pi / 2 - xatan (1 / x) + Morebits
  else Pi / 4 + xatan ((x - 1) / (x + 1)) + 0.5 * Morebits

/-- Go `math.Atan` (`atan.go`, func `atan`). -/
def Atan (x : float64) : float64 :=
  if x.eq 0 then x
  else if 0 < x then satan x
  else -satan (-x)

/-- Go `math.Signbit`. -/
def Signbit : float64 → Bool
  | .nan => false
  | .inf s => s
  | .fin s _ _ => s

/-- Go `math.Copysign`. -/
def Copysign (f sign : float64) : float64 :=
  match f with
  | .nan => .nan
  | .inf _ => .inf (Signbit sign)
  | .fin _ m e => .fin (Signbit sign) m e

/-- Go `math.IsInf(x, 0)`. -/
def IsInf : float64 → Bool
  | .inf _ => true
  | _ => false

/-- Go `math.Atan2` (`atan2.go`, func `atan2`). -/
def Atan2 (y x : float64) : float64 :=
  if x = .nan ∨ y = .nan then .nan
  else if y.eq 0 then
    if 0 ≤ x ∧ Signbit x = false then Copysign 0 y else Copysign Pi y
  else if x.eq 0 then Copysign (Pi / 2) y
  else if IsInf x then
    if x = .inf false then
      if IsInf y then Copysign (Pi / 4) y else Copysign 0 y
    else
      if IsInf y then Copysign threePiOver4 y else Copysign Pi y
  else if IsInf y then Copysign (Pi / 2) y
  else
    let q := Atan (y / x)
    if x < 0 then (if q ≤ 0 then q + Pi else q - Pi) else q

end math

/-- The `math` package as the program calls it on `float64`. -/
def go64 : GoMath float64 :=
  { Pi := math.Pi, Sin := math.Sin, Cos := math.Cos, Sqrt := math.Sqrt, Atan2 := math.Atan2 }

namespace fmt

/-- Three decimal digits of `n < 1000`, with leading zeros. -/
def pad3 (n : Nat) : String :=
  (if n < 10 then "00" else if n < 100 then "0" else "") ++ toString n

/-- Go `fmt.Sprintf("%.3f", d)`: `NaN`, `+Inf`, `-Inf`, or the sign, the integer part, a point
and three decimals of the exact value rounded to nearest, ties to even. -/
def Sprintf3 : float64 → String
  | .nan => "NaN"
  | .inf s => if s then "-Inf" else "+Inf"
  | .fin s m e =>
    let n :=
      if 0 ≤ e then (m <<< e.toNat) * 1000
      else
        let den := 2 ^ (-e).toNat
        let q := m * 1000 / den
        let r := m * 1000 % den
        if den < 2 * r ∨ (2 * r = den ∧ q % 2 = 1) then q + 1 else q
    (if s then "-" else "") ++ toString (n / 1000) ++ "." ++ pad3 (n % 1000)

end fmt

/-! ## Sample data -/

/-- A configuration with `ConfidenceThreshold` 0.8, over the reals. -/
noncomputable def sampleConfig : AppConfig ℝ :=
  { ALSRegion := "ap-southeast-1", MapIndex := "index", Countries := ["IDN"],
    ConfidenceThreshold := 0.8, InputFile := "input.csv", OutputFile := "output" }

/-- The input record `("123 Main St", 40.0, -74.0)`, over the reals. -/
noncomputable def sampleRecord : dataIn ℝ :=
  { Text := "123 Main St", Lat := 40.0, Long := -74.0 }

/-- A provider that answers every call with the single result
`("123 Main Street, City", relevance, 40.001, -74.001)`, over the reals. -/
noncomputable def sampleClient (relevance : ℝ) : Nat → SearchCall ℝ :=
  fun _ _ => .ok [{ Relevance := some relevance,
                    Place := some { Label := some "123 Main Street, City",
                                    Geometry := some { Point := [-74.001, 40.001] } } }]

/-- A formatter for sample runs in which the text of `Distance` is not examined. -/
def blankFormatter : ℝ → String :=
  fun _ => ""

/-- A configuration with `ConfidenceThreshold` 0.8. -/
def config64 : AppConfig float64 :=
  { ALSRegion := "ap-southeast-1", MapIndex := "index", Countries := ["IDN"],
    ConfidenceThreshold := 0.8, InputFile := "input.csv", OutputFile := "output" }

/-- The input record `("123 Main St", 40.0, -74.0)`. -/
def record64 : dataIn float64 :=
  { Text := "123 Main St", Lat := 40.0, Long := -74.0 }

/-- The complete result `("123 Main Street, City", 0.95, 40.001, -74.001)`. -/
def result64 : SearchForTextResult float64 :=
  { Relevance := some 0.95,
    Place := some { Label := some "123 Main Street, City",
                    Geometry := some { Point := [-74.001, 40.001] } } }

/-- The same result without `Relevance` (a nil pointer). -/
def resultNoRelevance : SearchForTextResult float64 :=
  { Relevance := none,
    Place := some { Label := some "123 Main Street, City",
                    Geometry := some { Point := [-74.001, 40.001] } } }

/-- A provider that answers every call with `result64`. -/
def okClient : Nat → SearchCall float64 :=
  fun _ _ => .ok [result64]

/-- A provider that answers every call with a result that has no `Relevance`. -/
def noRelevanceClient : Nat → SearchCall float64 :=
  fun _ _ => .ok [resultNoRelevance]

/-- A provider that answers the call for position 0 with `result64` and every later call
with a result that has no `Relevance`. -/
def thenNoRelevanceClient : Nat → SearchCall float64 :=
  fun i _ => if i = 0 then .ok [result64] else .ok [resultNoRelevance]

/-- A provider that answers the call for position 0 with `result64` and fails every later
call with the message `"ThrottlingException: Rate exceeded"`. -/
def thenThrottledClient : Nat → SearchCall float64 :=
  fun i _ => if i = 0 then .ok [result64] else .error "ThrottlingException: Rate exceeded"

/-- The success record of `record64` under `result64`, as the program builds it. -/
def mainStreetOut : dataOut float64 :=
  { Index := 0, InputText := "123 Main St", InputLat := 40.0, InputLong := -74.0,
    OutputText := "123 Main Street, City", OutputLat := 40.001, OutputLong := -74.001,
    Confidence := 0.95, Distance := "0.140", Status := "OK" }

/-- The input record `("anti84", -84, -180)`. -/
def antipodeRecord : dataIn float64 :=
  { Text := "anti84", Lat := -84, Long := -180 }

/-- A provider that answers every call with the single result of relevance 0.9 and
`Point` `[0, 84]` (longitude 0, latitude 84). -/
def antipodeClient : Nat → SearchCall float64 :=
  fun _ _ => .ok [{ Relevance := some 0.9,
                    Place := some { Label := some "anti84",
                                    Geometry := some { Point := [0, 84] } } }]

/-! ## The loop: one record at a time -/

/-- Looking up position `j` relative to a loop started at `i`, past the head of the list. -/
theorem getElem_shift_cons {α : Type} (v : α) (rest : List α) (i j : Nat)
    (h : i + 1 ≤ j) : (v :: rest)[j - i]? = rest[j - (i + 1)]? := by
  have : j - i = (j - (i + 1)) + 1 := by omega
  rw [this, List.getElem?_cons_succ]

/-- The error of the provider call is handed on by `searchPlace`, message unchanged. -/
theorem searchPlace_error {F : Type} (call : SearchCall F) (text m : String)
    (h : call text = .error m) : searchPlace call text = .error m := by
  simp [searchPlace, h]

/-- An empty result list is turned by `searchPlace` into the error `"no result found"`. -/
theorem searchPlace_empty {F : Type} (call : SearchCall F) (text : String)
    (h : call text = .ok []) : searchPlace call text = .error "no result found" := by
  simp [searchPlace, h]

/-- No panic of `searchPlace` on an answer whose first result, if any, is complete. -/
theorem searchPlace_ne_panic {F : Type} (call : SearchCall F) (text : String)
    (h : ∀ (r : SearchForTextResult F) (rs : List (SearchForTextResult F)),
      call text = .ok (r :: rs) → complete r = true) :
    searchPlace call text ≠ .panic := by
  unfold searchPlace
  cases hc : call text with
  | error e => simp
  | ok results =>
    cases results with
    | nil => simp
    | cons r rs =>
      have hr := h r rs hc
      obtain ⟨place, relevance⟩ := r
      cases relevance with
      | none => simp [complete] at hr
      | some confidence =>
        cases place with
        | none => simp [complete] at hr
        | some place =>
          obtain ⟨geometry, label⟩ := place
          cases label with
          | none => cases geometry <;> simp [complete] at hr
          | some label =>
            cases geometry with
            | none => simp [complete] at hr
            | some geometry =>
              obtain ⟨point⟩ := geometry
              match point, hr with
              | long :: lat :: _, _ => simp

section Loop

variable {F : Type} [Add F] [Sub F] [Mul F] [Div F] [NatCast F]
variable [LT F] [∀ a b : F, Decidable (a < b)]
variable (lib : GoMath F) (Sprintf3 : F → String) (appConfig : AppConfig F)
variable (locClient : Nat → SearchCall F)

/-- The body when the outer `err` is nil and the provider call succeeds. -/
theorem loopBody_ok (i : Nat) (v : dataIn F) (s : Streams F) (label : String)
    (confidence lat long : F)
    (h : searchPlace (locClient i) v.Text = .ok (label, confidence, lat, long)) :
    loopBody lib Sprintf3 appConfig locClient none i v s =
      some
        { output := s.output ++
            [{ Index := i, InputText := v.Text, InputLat := v.Lat, InputLong := v.Long,
               OutputText := label, OutputLat := lat, OutputLong := long,
               Confidence := confidence,
               Distance := Sprintf3 (calculateDistance lib v.Lat v.Long lat long),
               Status := if confidence < appConfig.ConfidenceThreshold
                 then "LOW CONFIDENCE" else "OK" }],
          outputErr := s.outputErr } := by
  unfold loopBody
  simp only [if_true, h]
  by_cases hc : confidence < appConfig.ConfidenceThreshold <;> simp [hc]

/-- The body when the outer `err` is nil and the provider call fails. -/
theorem loopBody_error (i : Nat) (v : dataIn F) (s : Streams F) (e : String)
    (h : searchPlace (locClient i) v.Text = .error e) :
    loopBody lib Sprintf3 appConfig locClient none i v s =
      some
        { output := s.output,
          outputErr := s.outputErr ++ [{ Index := i, Text := v.Text, Error := e }] } := by
  unfold loopBody
  simp only [if_true, h]

/-- The body when the outer `err` is nil and `searchPlace` panics. -/
theorem loopBody_panic (i : Nat) (v : dataIn F) (s : Streams F)
    (h : searchPlace (locClient i) v.Text = .panic) :
    loopBody lib Sprintf3 appConfig locClient none i v s = none := by
  unfold loopBody
  simp only [if_true, h]

/-- The loop on a concatenation is the loop on the first part, then on the second. -/
theorem mainLoop_append (err : Option String) (l₁ l₂ : List (dataIn F)) :
    ∀ (i : Nat) (s s₁ : Streams F),
      mainLoop lib Sprintf3 appConfig locClient err i l₁ s = some s₁ →
      mainLoop lib Sprintf3 appConfig locClient err i (l₁ ++ l₂) s =
        mainLoop lib Sprintf3 appConfig locClient err (i + l₁.length) l₂ s₁ := by
  induction l₁ with
  | nil =>
    intro i s s₁ h
    simp only [mainLoop, Option.some.injEq] at h
    simp [h]
  | cons v rest ih =>
    intro i s s₁ h
    rw [List.cons_append, mainLoop]
    rw [mainLoop] at h
    cases hb : loopBody lib Sprintf3 appConfig locClient err i v s with
    | none => rw [hb] at h; simp at h
    | some s' =>
      rw [hb] at h
      simp only at h ⊢
      rw [ih (i + 1) s' s₁ h, List.length_cons]
      congr 1
      omega

/-- With a nil outer `err`, `main` runs the loop from empty slices. -/
theorem main_eq (input : List (dataIn F)) :
    main lib Sprintf3 appConfig locClient input none =
      mainLoop lib Sprintf3 appConfig locClient none 0 input ⟨[], []⟩ := by
  simp [main]

/-- When no call panics, the loop runs to its end, it appends one record per input record,
and the indices it appends to the success stream and to the error stream are the positions
whose call succeeds, respectively fails, in order. -/
theorem mainLoop_run (l : List (dataIn F)) :
    ∀ (i : Nat) (s : Streams F),
      (∀ (k : Nat) (v : dataIn F), l[k]? = some v →
        searchPlace (locClient (i + k)) v.Text ≠ .panic) →
      ∃ s', mainLoop lib Sprintf3 appConfig locClient none i l s = some s' ∧
        s'.output.length + s'.outputErr.length =
          s.output.length + s.outputErr.length + l.length ∧
        s'.output.map (fun r => r.Index) = s.output.map (fun r => r.Index) ++
          (List.range' i l.length).filter (fun j =>
            match l[j - i]? with
            | some v => (searchPlace (locClient j) v.Text).isOk
            | none => false) ∧
        s'.outputErr.map (fun e => e.Index) = s.outputErr.map (fun e => e.Index) ++
          (List.range' i l.length).filter (fun j =>
            match l[j - i]? with
            | some v => (searchPlace (locClient j) v.Text).isError
            | none => false) := by
  induction l with
  | nil => intro i s _; exact ⟨s, rfl, by simp, by simp, by simp⟩
  | cons v rest ih =>
    intro i s hp
    have hp0 : searchPlace (locClient i) v.Text ≠ .panic := by
      simpa using hp 0 v (by simp)
    have hprest : ∀ (k : Nat) (w : dataIn F), rest[k]? = some w →
        searchPlace (locClient (i + 1 + k)) w.Text ≠ .panic := by
      intro k w hk
      have := hp (k + 1) w (by simpa using hk)
      rwa [show i + (k + 1) = i + 1 + k by omega] at this
    have htailOk : (List.range' (i + 1) rest.length).filter (fun j =>
          match rest[j - (i + 1)]? with
          | some v => (searchPlace (locClient j) v.Text).isOk
          | none => false) =
        (List.range' (i + 1) rest.length).filter (fun j =>
          match (v :: rest)[j - i]? with
          | some v => (searchPlace (locClient j) v.Text).isOk
          | none => false) := by
      apply List.filter_congr
      intro j hj
      rw [getElem_shift_cons v rest i j (List.mem_range'_1.mp hj).1]
    have htailErr : (List.range' (i + 1) rest.length).filter (fun j =>
          match rest[j - (i + 1)]? with
          | some v => (searchPlace (locClient j) v.Text).isError
          | none => false) =
        (List.range' (i + 1) rest.length).filter (fun j =>
          match (v :: rest)[j - i]? with
          | some v => (searchPlace (locClient j) v.Text).isError
          | none => false) := by
      apply List.filter_congr
      intro j hj
      rw [getElem_shift_cons v rest i j (List.mem_range'_1.mp hj).1]
    cases hs : searchPlace (locClient i) v.Text with
    | panic => exact absurd hs hp0
    | error e =>
      obtain ⟨s', h1, h2, h3, h4⟩ := ih (i + 1)
        { output := s.output,
          outputErr := s.outputErr ++ [{ Index := i, Text := v.Text, Error := e }] } hprest
      refine ⟨s', ?_, ?_, ?_, ?_⟩
      · rw [mainLoop, loopBody_error lib Sprintf3 appConfig locClient i v s e hs]
        exact h1
      · simp only [List.length_append, List.length_cons, List.length_nil] at h2 ⊢
        omega
      · rw [h3, htailOk, List.length_cons, List.range'_succ, List.filter_cons]
        simp [hs, GoResult.isOk]
      · rw [h4, htailErr, List.length_cons, List.range'_succ, List.filter_cons]
        simp [hs, GoResult.isError]
    | ok res =>
      obtain ⟨label, confidence, lat, long⟩ := res
      obtain ⟨s', h1, h2, h3, h4⟩ := ih (i + 1)
        { output := s.output ++
            [{ Index := i, InputText := v.Text, InputLat := v.Lat, InputLong := v.Long,
               OutputText := label, OutputLat := lat, OutputLong := long,
               Confidence := confidence,
               Distance := Sprintf3 (calculateDistance lib v.Lat v.Long lat long),
               Status := if confidence < appConfig.ConfidenceThreshold
                 then "LOW CONFIDENCE" else "OK" }],
          outputErr := s.outputErr } hprest
      refine ⟨s', ?_, ?_, ?_, ?_⟩
      · rw [mainLoop,
          loopBody_ok lib Sprintf3 appConfig locClient i v s label confidence lat long hs]
        exact h1
      · simp only [List.length_append, List.length_cons, List.length_nil] at h2 ⊢
        omega
      · rw [h3, htailOk, List.length_cons, List.range'_succ, List.filter_cons]
        simp [hs, GoResult.isOk]
      · rw [h4, htailErr, List.length_cons, List.range'_succ, List.filter_cons]
        simp [hs, GoResult.isError]

/-- When every answer is complete, `main` runs to its end; the two streams hold one record
per input record, the success indices are the resolving positions and the error indices the
failing positions, each in order. -/
theorem main_run (input : List (dataIn F)) (h : answersComplete locClient input) :
    ∃ s, main lib Sprintf3 appConfig locClient input none = some s ∧
      s.output.length + s.outputErr.length = input.length ∧
      s.output.map (fun r => r.Index) =
        (List.range input.length).filter (resolves locClient input) ∧
      s.outputErr.map (fun e => e.Index) =
        (List.range input.length).filter (fails locClient input) := by
  have hp : ∀ (k : Nat) (v : dataIn F), input[k]? = some v →
      searchPlace (locClient (0 + k)) v.Text ≠ .panic := by
    intro k v hk
    rw [Nat.zero_add]
    exact searchPlace_ne_panic (locClient k) v.Text (h k v hk)
  obtain ⟨s, h1, h2, h3, h4⟩ :=
    mainLoop_run lib Sprintf3 appConfig locClient input 0 ⟨[], []⟩ hp
  refine ⟨s, by rw [main_eq]; exact h1, by simpa using h2, ?_, ?_⟩
  · rw [h3, List.range_eq_range']
    simp only [List.map_nil, List.nil_append]
    apply List.filter_congr
    intro j _
    simp [resolves]
  · rw [h4, List.range_eq_range']
    simp only [List.map_nil, List.nil_append]
    apply List.filter_congr
    intro j _
    simp [fails]

end Loop

/-- When every answer is complete, a position of the input resolves or fails, never both. -/
theorem fails_eq_not_resolves {F : Type} (locClient : Nat → SearchCall F)
    (input : List (dataIn F)) (h : answersComplete locClient input)
    (j : Nat) (hj : j < input.length) :
    fails locClient input j = !resolves locClient input j := by
  have hv : input[j]? = some input[j] := List.getElem?_eq_getElem hj
  have hp := searchPlace_ne_panic (locClient j) input[j].Text (h j input[j] hv)
  simp only [fails, resolves, hv]
  cases hs : searchPlace (locClient j) input[j].Text with
  | panic => exact absurd hs hp
  | error e => rfl
  | ok res => rfl

/-! ## The pipeline properties -/

section Pipeline

variable {F : Type} [Add F] [Sub F] [Mul F] [Div F] [NatCast F]
variable [LT F] [∀ a b : F, Decidable (a < b)]
variable (lib : GoMath F) (Sprintf3 : F → String) (appConfig : AppConfig F)
variable (locClient : Nat → SearchCall F)

/-- C1 (amended): for every input and every provider whose answers are errors, empty
result lists or lists with a complete first result, `main` (the outer `err` being nil) runs
the loop to its end, and the success stream and the error stream together hold as many
records as the input. -/
theorem main_success_plus_error_eq_input (input : List (dataIn F))
    (h : answersComplete locClient input) :
    ∃ s, main lib Sprintf3 appConfig locClient input none = some s ∧
      s.output.length + s.outputErr.length = input.length := by
  obtain ⟨s, h1, h2, _, _⟩ := main_run lib Sprintf3 appConfig locClient input h
  exact ⟨s, h1, h2⟩

/-- C2 (amended): for every input and every provider whose answers are errors, empty result
lists or lists with a complete first result, `main` runs to its end; the `Index` values of
the success stream and those of the error stream are disjoint, an index is in one of them
exactly when it is below the number of input records, and every such index occurs exactly
once over the two streams. -/
theorem main_index_partition (input : List (dataIn F))
    (h : answersComplete locClient input) :
    ∃ s, main lib Sprintf3 appConfig locClient input none = some s ∧
      List.Disjoint (s.output.map (fun r => r.Index)) (s.outputErr.map (fun e => e.Index)) ∧
      (∀ j, (j ∈ s.output.map (fun r => r.Index) ∨ j ∈ s.outputErr.map (fun e => e.Index)) ↔
        j < input.length) ∧
      (∀ j, j < input.length →
        (s.output.map (fun r => r.Index)).count j +
          (s.outputErr.map (fun e => e.Index)).count j = 1) := by
  obtain ⟨s, h1, _, h3, h4⟩ := main_run lib Sprintf3 appConfig locClient input h
  have h4' : s.outputErr.map (fun e => e.Index) =
      (List.range input.length).filter (fun j => !resolves locClient input j) := by
    rw [h4]
    apply List.filter_congr
    intro j hj
    exact fails_eq_not_resolves locClient input h j (List.mem_range.mp hj)
  refine ⟨s, h1, ?_, ?_, ?_⟩
  · rw [h3, h4']
    intro j hj1 hj2
    have hj1 := (List.mem_filter.mp hj1).2
    have hj2 := (List.mem_filter.mp hj2).2
    simp [hj1] at hj2
  · intro j
    rw [h3, h4']
    simp only [List.mem_filter, List.mem_range]
    constructor
    · rintro (hj | hj) <;> exact hj.1
    · intro hj
      cases hr : resolves locClient input j
      · right; exact ⟨hj, by simp⟩
      · left; exact ⟨hj, rfl⟩
  · intro j hj
    rw [h3, h4']
    have hnd : (List.range input.length).Nodup := List.nodup_range _
    cases hr : resolves locClient input j
    · have hn : j ∉ (List.range input.length).filter (resolves locClient input) := by
        simp [List.mem_filter, hr]
      have hm : j ∈ (List.range input.length).filter
          (fun j => !resolves locClient input j) := by
        simp [List.mem_filter, hr, hj]
      rw [List.count_eq_zero_of_not_mem hn, List.count_eq_one_of_mem (hnd.filter _) hm]
    · have hm : j ∈ (List.range input.length).filter (resolves locClient input) := by
        simp [List.mem_filter, hr, hj]
      have hn : j ∉ (List.range input.length).filter
          (fun j => !resolves locClient input j) := by
        simp [List.mem_filter, hr]
      rw [List.count_eq_zero_of_not_mem hn, List.count_eq_one_of_mem (hnd.filter _) hm]

/-- C3 (amended): for every input and every provider whose answers are errors, empty result
lists or lists with a complete first result, `main` runs to its end; in each stream the
`Index` values, read in append order, are strictly increasing; the success stream lists
exactly the positions whose provider call succeeds and the error stream exactly those whose
call fails, both in input order. -/
theorem main_streams_in_input_order (input : List (dataIn F))
    (h : answersComplete locClient input) :
    ∃ s, main lib Sprintf3 appConfig locClient input none = some s ∧
      (s.output.map (fun r => r.Index)).Sorted (· < ·) ∧
      (s.outputErr.map (fun e => e.Index)).Sorted (· < ·) ∧
      s.output.map (fun r => r.Index) =
        (List.range input.length).filter (resolves locClient input) ∧
      s.outputErr.map (fun e => e.Index) =
        (List.range input.length).filter (fails locClient input) := by
  obtain ⟨s, h1, _, h3, h4⟩ := main_run lib Sprintf3 appConfig locClient input h
  refine ⟨s, h1, ?_, ?_, h3, h4⟩
  · rw [h3]
    exact (List.sorted_lt_range _).filter _
  · rw [h4]
    exact (List.sorted_lt_range _).filter _

/-- C4: when the provider call for a record succeeds with confidence `c`, the body appends
one record to the success stream and nothing to the error stream; its `Status` is
`"LOW CONFIDENCE"` exactly when `c` is below the configured threshold and `"OK"` exactly
when it is not, so a confidence equal to a threshold that is not below itself gives `"OK"`. -/
theorem loopBody_status_by_confidence (i : Nat) (v : dataIn F) (s : Streams F)
    (label : String) (c lat long : F)
    (h : searchPlace (locClient i) v.Text = .ok (label, c, lat, long)) :
    ∃ r : dataOut F,
      loopBody lib Sprintf3 appConfig locClient none i v s =
        some { output := s.output ++ [r], outputErr := s.outputErr } ∧
      r.Index = i ∧ r.Confidence = c ∧
      (r.Status = "LOW CONFIDENCE" ↔ c < appConfig.ConfidenceThreshold) ∧
      (r.Status = "OK" ↔ ¬ c < appConfig.ConfidenceThreshold) ∧
      (c = appConfig.ConfidenceThreshold →
        ¬ appConfig.ConfidenceThreshold < appConfig.ConfidenceThreshold → r.Status = "OK") := by
  refine ⟨_, loopBody_ok lib Sprintf3 appConfig locClient i v s label c lat long h, rfl, rfl,
    ?_, ?_, ?_⟩
  · by_cases hc : c < appConfig.ConfidenceThreshold <;> simp [hc]
  · by_cases hc : c < appConfig.ConfidenceThreshold <;> simp [hc]
  · intro hct hirr
    have hc : ¬ c < appConfig.ConfidenceThreshold := by rw [hct]; exact hirr
    simp [hc]

/-- C5: let the loop have reached the record `v` at position `pre.length` with the streams
`sPre`, and let the provider call for it fail with message `m`, or return no result, in
which case `m` is `"no result found"`. Then `searchPlace` returns the error `m`, the body
appends the one error record with index `pre.length`, text `v.Text` and error `m` to the
error stream and leaves the success stream as it is, and `main` goes on with the records
after `v` from position `pre.length + 1`. -/
theorem failed_call_appends_one_error (pre : List (dataIn F)) (v : dataIn F)
    (rest : List (dataIn F)) (m : String) (sPre : Streams F)
    (hpre : mainLoop lib Sprintf3 appConfig locClient none 0 pre ⟨[], []⟩ = some sPre)
    (h : locClient pre.length v.Text = .error m ∨
      (locClient pre.length v.Text = .ok [] ∧ m = "no result found")) :
    searchPlace (locClient pre.length) v.Text = .error m ∧
    loopBody lib Sprintf3 appConfig locClient none pre.length v sPre =
      some
        { output := sPre.output,
          outputErr := sPre.outputErr ++
            [{ Index := pre.length, Text := v.Text, Error := m }] } ∧
    main lib Sprintf3 appConfig locClient (pre ++ v :: rest) none =
      mainLoop lib Sprintf3 appConfig locClient none (pre.length + 1) rest
        { output := sPre.output,
          outputErr := sPre.outputErr ++
            [{ Index := pre.length, Text := v.Text, Error := m }] } := by
  have hs : searchPlace (locClient pre.length) v.Text = .error m := by
    rcases h with h | ⟨h, rfl⟩
    · exact searchPlace_error _ _ _ h
    · exact searchPlace_empty _ _ h
  have hb := loopBody_error lib Sprintf3 appConfig locClient pre.length v sPre m hs
  refine ⟨hs, hb, ?_⟩
  rw [main_eq, mainLoop_append lib Sprintf3 appConfig locClient none pre (v :: rest) 0
    ⟨[], []⟩ sPre hpre, Nat.zero_add, mainLoop, hb]

end Pipeline
/-! ## The haversine distance over the reals -/

section Haversine

/-- The haversine term over the reals, with the degree-to-radian conversions carried out. -/
theorem haversineA_real (lat1 lon1 lat2 lon2 : ℝ) :
    haversineA realLib lat1 lon1 lat2 lon2 =
      Real.sin ((lat2 - lat1) * Real.pi / 360) ^ 2 +
        Real.cos (lat1 * Real.pi / 180) * Real.cos (lat2 * Real.pi / 180) *
          Real.sin ((lon2 - lon1) * Real.pi / 360) ^ 2 := by
  simp only [haversineA, degreesToRadians, realLib, Nat.cast_ofNat]
  have h1 : (lat2 * Real.pi / 180 - lat1 * Real.pi / 180) / 2 =
      (lat2 - lat1) * Real.pi / 360 := by ring
  have h2 : (lon2 * Real.pi / 180 - lon1 * Real.pi / 180) / 2 =
      (lon2 - lon1) * Real.pi / 360 := by ring
  rw [h1, h2]
  ring

/-- The distance over the reals in terms of the haversine term. -/
theorem calculateDistance_real (lat1 lon1 lat2 lon2 : ℝ) :
    calculateDistance realLib lat1 lon1 lat2 lon2 =
      6371 * (2 * realAtan2 (√(haversineA realLib lat1 lon1 lat2 lon2))
        (√(1 - haversineA realLib lat1 lon1 lat2 lon2))) := by
  simp [calculateDistance, realLib, earthRadius]

/-- The haversine term does not change when the two points are exchanged. -/
theorem haversineA_symm (lat1 lon1 lat2 lon2 : ℝ) :
    haversineA realLib lat1 lon1 lat2 lon2 =
      haversineA realLib lat2 lon2 lat1 lon1 := by
  rw [haversineA_real, haversineA_real]
  have h1 : (lat1 - lat2) * Real.pi / 360 = -((lat2 - lat1) * Real.pi / 360) := by ring
  have h2 : (lon1 - lon2) * Real.pi / 360 = -((lon2 - lon1) * Real.pi / 360) := by ring
  rw [h1, h2, Real.sin_neg, Real.sin_neg]
  ring

/-- A product of two cosines as a difference of squares at the half sum and half
difference. -/
theorem cos_mul_cos_eq (x y : ℝ) :
    Real.cos x * Real.cos y =
      Real.cos ((x + y) / 2) ^ 2 - Real.sin ((y - x) / 2) ^ 2 := by
  have hx : x = (x + y) / 2 - (y - x) / 2 := by ring
  have hy : y = (x + y) / 2 + (y - x) / 2 := by ring
  generalize (x + y) / 2 = A at hx hy
  generalize (y - x) / 2 = B at hx hy
  rw [hx, hy, Real.cos_sub, Real.cos_add]
  have hA := Real.sin_sq_add_cos_sq A
  have hB := Real.sin_sq_add_cos_sq B
  linear_combination (-(Real.sin B) ^ 2) * hA + (Real.cos A) ^ 2 * hB

/-- The haversine term lies in `[0, 1]` for all real arguments. -/
theorem haversineA_mem_unit (lat1 lon1 lat2 lon2 : ℝ) :
    0 ≤ haversineA realLib lat1 lon1 lat2 lon2 ∧
      haversineA realLib lat1 lon1 lat2 lon2 ≤ 1 := by
  rw [haversineA_real, cos_mul_cos_eq]
  have hB : (lat2 * Real.pi / 180 - lat1 * Real.pi / 180) / 2 =
      (lat2 - lat1) * Real.pi / 360 := by ring
  rw [hB]
  have hu0 := sq_nonneg (Real.sin ((lat2 - lat1) * Real.pi / 360))
  have hu1 := Real.sin_sq_le_one ((lat2 - lat1) * Real.pi / 360)
  have hs0 := sq_nonneg (Real.sin ((lon2 - lon1) * Real.pi / 360))
  have hs1 := Real.sin_sq_le_one ((lon2 - lon1) * Real.pi / 360)
  have hw0 := sq_nonneg (Real.cos ((lat1 * Real.pi / 180 + lat2 * Real.pi / 180) / 2))
  have hw1 := Real.cos_sq_le_one ((lat1 * Real.pi / 180 + lat2 * Real.pi / 180) / 2)
  generalize Real.sin ((lat2 - lat1) * Real.pi / 360) ^ 2 = u at hu0 hu1 ⊢
  generalize Real.sin ((lon2 - lon1) * Real.pi / 360) ^ 2 = t at hs0 hs1 ⊢
  generalize Real.cos ((lat1 * Real.pi / 180 + lat2 * Real.pi / 180) / 2) ^ 2 = w at hw0 hw1 ⊢
  constructor
  · nlinarith [mul_nonneg hw0 hs0, mul_nonneg hu0 (sub_nonneg.mpr hs1)]
  · nlinarith [mul_nonneg (sub_nonneg.mpr hw1) hs0,
      mul_nonneg (sub_nonneg.mpr hu1) (sub_nonneg.mpr hs1)]

/-- On non-negative arguments the two-argument arctangent lies in `[0, π/2]`. -/
theorem realAtan2_mem_quadrant (y x : ℝ) (hy : 0 ≤ y) (hx : 0 ≤ x) :
    0 ≤ realAtan2 y x ∧ realAtan2 y x ≤ Real.pi / 2 := by
  have hpi := Real.pi_pos
  unfold realAtan2
  by_cases h0 : y = 0
  · simp only [h0, if_true, hx]
    constructor <;> linarith
  · simp only [h0, if_false]
    have hypos : 0 < y := lt_of_le_of_ne hy (Ne.symm h0)
    by_cases hx0 : x = 0
    · simp only [hx0, if_true, hypos]
      constructor <;> linarith
    · have hxneg : ¬ x < 0 := not_lt.mpr hx
      simp only [hx0, if_false, hxneg]
      constructor
      · have h : Real.arctan 0 ≤ Real.arctan (y / x) :=
          Real.arctan_strictMono.monotone (div_nonneg hy hx)
        rwa [Real.arctan_zero] at h
      · exact (Real.arctan_lt_pi_div_two _).le

/-- The distance from a point to its antipode `(-lat, lon + 180)`. -/
theorem calculateDistance_antipode (lat lon : ℝ) :
    calculateDistance realLib lat lon (-lat) (lon + 180) = Real.pi * 6371 := by
  have ha : haversineA realLib lat lon (-lat) (lon + 180) = 1 := by
    rw [haversineA_real]
    have h1 : (-lat - lat) * Real.pi / 360 = -(lat * Real.pi / 180) := by ring
    have h2 : (lon + 180 - lon) * Real.pi / 360 = Real.pi / 2 := by ring
    have h3 : -lat * Real.pi / 180 = -(lat * Real.pi / 180) := by ring
    rw [h1, h2, h3, Real.sin_neg, Real.cos_neg, Real.sin_pi_div_two]
    have := Real.sin_sq_add_cos_sq (lat * Real.pi / 180)
    linear_combination this
  rw [calculateDistance_real, ha]
  have hpi := Real.pi_pos
  simp [realAtan2]
  ring

/-- The cosine of 40 degrees, from `cos (3x) = 4 cos³ x - 3 cos x` at `3x = 120` degrees. -/
theorem cos_forty_degrees :
    (0.766 : ℝ) < Real.cos (2 * Real.pi / 9) ∧ Real.cos (2 * Real.pi / 9) < 0.7661 := by
  have hpi := Real.pi_pos
  have h3 : Real.cos (3 * (2 * Real.pi / 9)) = -(1 / 2) := by
    have : 3 * (2 * Real.pi / 9) = Real.pi - Real.pi / 3 := by ring
    rw [this, Real.cos_pi_sub, Real.cos_pi_div_three]
  rw [Real.cos_three_mul] at h3
  have hhalf : 1 / 2 < Real.cos (2 * Real.pi / 9) := by
    rw [← Real.cos_pi_div_three]
    apply Real.cos_lt_cos_of_nonneg_of_le_pi <;> linarith
  generalize Real.cos (2 * Real.pi / 9) = c at h3 hhalf
  constructor
  · by_contra hc
    push_neg at hc
    nlinarith [mul_nonneg (sub_nonneg.mpr hc) (sub_nonneg.mpr hhalf.le),
      mul_nonneg (mul_nonneg (sub_nonneg.mpr hc) (sub_nonneg.mpr hhalf.le)) (by linarith : (0:ℝ) ≤ c)]
  · by_contra hc
    push_neg at hc
    nlinarith [mul_nonneg (sub_nonneg.mpr hc) (by linarith : (0:ℝ) ≤ c),
      mul_nonneg (mul_nonneg (sub_nonneg.mpr hc) (by linarith : (0:ℝ) ≤ c)) (by linarith : (0:ℝ) ≤ c)]

/-- The cosine of 40.001 degrees. -/
theorem cos_forty_degrees_plus :
    (0.7659 : ℝ) < Real.cos (2 * Real.pi / 9 + Real.pi / 180000) ∧
      Real.cos (2 * Real.pi / 9 + Real.pi / 180000) < 0.7661 := by
  have hpi := Real.pi_pos
  have hpi3 := Real.pi_gt_three
  have hpi4 := Real.pi_le_four
  obtain ⟨hc1, hc2⟩ := cos_forty_degrees
  constructor
  · rw [Real.cos_add]
    have hcos : 1 - (Real.pi / 180000) ^ 2 / 2 ≤ Real.cos (Real.pi / 180000) :=
      Real.one_sub_sq_div_two_le_cos
    have hsin : Real.sin (Real.pi / 180000) ≤ Real.pi / 180000 := Real.sin_le (by positivity)
    have hsin0 : 0 ≤ Real.sin (Real.pi / 180000) :=
      Real.sin_nonneg_of_nonneg_of_le_pi (by positivity) (by linarith)
    have hs1 : Real.sin (2 * Real.pi / 9) ≤ 1 := Real.sin_le_one _
    have he1 : Real.pi / 180000 ≤ 1 / 45000 := by linarith
    have he0 : 0 ≤ Real.pi / 180000 := by positivity
    have hsq : (Real.pi / 180000) ^ 2 ≤ (1 / 45000) ^ 2 := by
      apply pow_le_pow_left₀ he0 he1
    have hcc : Real.cos (2 * Real.pi / 9) * (1 - (1 / 45000) ^ 2 / 2) ≤
        Real.cos (2 * Real.pi / 9) * Real.cos (Real.pi / 180000) := by
      apply mul_le_mul_of_nonneg_left _ (by linarith)
      linarith
    have hss : Real.sin (2 * Real.pi / 9) * Real.sin (Real.pi / 180000) ≤ 1 / 45000 := by
      calc Real.sin (2 * Real.pi / 9) * Real.sin (Real.pi / 180000)
          ≤ 1 * Real.sin (Real.pi / 180000) := mul_le_mul_of_nonneg_right hs1 hsin0
        _ ≤ 1 / 45000 := by linarith
    have : (0.766 : ℝ) * (1 - (1 / 45000) ^ 2 / 2) ≤
        Real.cos (2 * Real.pi / 9) * (1 - (1 / 45000) ^ 2 / 2) := by
      apply mul_le_mul_of_nonneg_right hc1.le
      norm_num
    norm_num at this hcc hss ⊢
    linarith
  · refine lt_of_le_of_lt ?_ hc2
    apply Real.cos_le_cos_of_nonneg_of_le_pi <;> [positivity; linarith; linarith]

/-- The squared sine of 0.0005 degrees. -/
theorem sin_sq_half_millidegree :
    (76151 / 10 ^ 15 : ℝ) < Real.sin (Real.pi / 360000) ^ 2 ∧
      Real.sin (Real.pi / 360000) ^ 2 < 76156 / 10 ^ 15 := by
  have hlo := Real.pi_gt_d6
  have hhi := Real.pi_lt_d6
  have hd0 : 0 < Real.pi / 360000 := by positivity
  have hdlo : (87266 / 10 ^ 10 : ℝ) < Real.pi / 360000 := by
    rw [lt_div_iff₀ (by norm_num)]; norm_num; linarith
  have hdhi : Real.pi / 360000 < (87267 / 10 ^ 10 : ℝ) := by
    rw [div_lt_iff₀ (by norm_num)]; norm_num; linarith
  constructor
  · have h1 := Real.sin_gt_sub_cube hd0 (by linarith)
    have hcube : (Real.pi / 360000) ^ 3 / 4 ≤ 1 / 10 ^ 10 := by
      have : (Real.pi / 360000) ^ 3 ≤ (87267 / 10 ^ 10 : ℝ) ^ 3 :=
        pow_le_pow_left₀ hd0.le hdhi.le 3
      norm_num at this ⊢
      linarith
    have h2 : (87265 / 10 ^ 10 : ℝ) < Real.sin (Real.pi / 360000) := by
      norm_num at hcube hdlo ⊢
      linarith
    have h3 : (87265 / 10 ^ 10 : ℝ) ^ 2 < Real.sin (Real.pi / 360000) ^ 2 :=
      pow_lt_pow_left₀ h2 (by norm_num) (by norm_num)
    norm_num at h3 ⊢
    linarith
  · have h1 : Real.sin (Real.pi / 360000) ^ 2 ≤ (Real.pi / 360000) ^ 2 := Real.sin_sq_le_sq
    have h2 : (Real.pi / 360000) ^ 2 < (87267 / 10 ^ 10 : ℝ) ^ 2 :=
      pow_lt_pow_left₀ hdhi hd0.le (by norm_num)
    norm_num at h2 ⊢
    linarith

/-- For `0 < a < 1` the angle `atan2(sqrt a, sqrt (1 - a))` is the arcsine of `sqrt a`: it
lies strictly between `sqrt a` and `sqrt a / sqrt (1 - a)`. -/
theorem realAtan2_sqrt_bounds (a : ℝ) (h0 : 0 < a) (h1 : a < 1) :
    √a < realAtan2 (√a) (√(1 - a)) ∧ realAtan2 (√a) (√(1 - a)) < √a / √(1 - a) := by
  have hu : 0 < √a := Real.sqrt_pos.mpr h0
  have hw : 0 < √(1 - a) := Real.sqrt_pos.mpr (by linarith)
  have hu2 : √a ^ 2 = a := Real.sq_sqrt h0.le
  have hw2 : √(1 - a) ^ 2 = 1 - a := Real.sq_sqrt (by linarith)
  have ht : 0 < √a / √(1 - a) := div_pos hu hw
  have hval : realAtan2 (√a) (√(1 - a)) = Real.arctan (√a / √(1 - a)) := by
    unfold realAtan2
    simp [hu.ne', hw.ne', not_lt.mpr hw.le]
  rw [hval]
  generalize √a = u at *
  generalize √(1 - a) = w at *
  have hpos : 0 < Real.arctan (u / w) := by
    have := Real.arctan_strictMono ht
    rwa [Real.arctan_zero] at this
  constructor
  · have hs := Real.sin_lt hpos
    rw [Real.sin_arctan] at hs
    have h1 : 1 + (u / w) ^ 2 = (1 / w) ^ 2 := by field_simp; linarith
    rw [h1, Real.sqrt_sq (by positivity)] at hs
    have : u / w / (1 / w) = u := by field_simp
    rwa [this] at hs
  · have := Real.lt_tan hpos (Real.arctan_lt_pi_div_two _)
    rwa [Real.tan_arctan] at this

/-- The haversine term between `(40.0, -74.0)` and `(40.001, -74.001)`. -/
theorem scenario_haversineA :
    (12082 / 10 ^ 14 : ℝ) < haversineA realLib 40.0 (-74.0) 40.001 (-74.001) ∧
      haversineA realLib 40.0 (-74.0) 40.001 (-74.001) < 12086 / 10 ^ 14 := by
  rw [haversineA_real]
  have e1 : ((40.001 : ℝ) - 40.0) * Real.pi / 360 = Real.pi / 360000 := by ring
  have e2 : ((-74.001 : ℝ) - (-74.0)) * Real.pi / 360 = -(Real.pi / 360000) := by ring
  have e3 : (40.0 : ℝ) * Real.pi / 180 = 2 * Real.pi / 9 := by ring
  have e4 : (40.001 : ℝ) * Real.pi / 180 = 2 * Real.pi / 9 + Real.pi / 180000 := by ring
  rw [e1, e2, e3, e4, Real.sin_neg, neg_sq]
  obtain ⟨hc1, hc2⟩ := cos_forty_degrees
  obtain ⟨hd1, hd2⟩ := cos_forty_degrees_plus
  obtain ⟨hs1, hs2⟩ := sin_sq_half_millidegree
  generalize Real.cos (2 * Real.pi / 9) = c at hc1 hc2 ⊢
  generalize Real.cos (2 * Real.pi / 9 + Real.pi / 180000) = c2 at hd1 hd2 ⊢
  generalize Real.sin (Real.pi / 360000) ^ 2 = S at hs1 hs2 ⊢
  have hK1 : (0.5866 : ℝ) < c * c2 := by
    have : (0.766 : ℝ) * 0.7659 < c * c2 :=
      mul_lt_mul'' hc1 hd1 (by norm_num) (by norm_num)
    norm_num at this ⊢
    linarith
  have hK2 : c * c2 < (0.587 : ℝ) := by
    have : c * c2 < (0.7661 : ℝ) * 0.7661 :=
      mul_lt_mul'' hc2 hd2 (by linarith) (by linarith)
    norm_num at this ⊢
    linarith
  have hform : S + c * c2 * S = S * (1 + c * c2) := by ring
  rw [hform]
  generalize c * c2 = K at hK1 hK2 ⊢
  constructor
  · have : (76151 / 10 ^ 15 : ℝ) * (1 + 0.5866) < S * (1 + K) :=
      mul_lt_mul'' hs1 (by linarith) (by norm_num) (by norm_num)
    norm_num at this ⊢
    linarith
  · have : S * (1 + K) < (76156 / 10 ^ 15 : ℝ) * (1 + 0.587) :=
      mul_lt_mul'' hs2 (by linarith) (by linarith) (by linarith)
    norm_num at this ⊢
    linarith

/-- The distance between `(40.0, -74.0)` and `(40.001, -74.001)` is between 0.1400 and
0.1401 km. -/
theorem scenario_distance_bounds :
    (0.1400 : ℝ) < calculateDistance realLib 40.0 (-74.0) 40.001 (-74.001) ∧
      calculateDistance realLib 40.0 (-74.0) 40.001 (-74.001) < 0.1401 := by
  rw [calculateDistance_real]
  obtain ⟨ha1, ha2⟩ := scenario_haversineA
  generalize haversineA realLib 40.0 (-74.0) 40.001 (-74.001) = a at ha1 ha2 ⊢
  have h0 : 0 < a := lt_trans (by norm_num) ha1
  have h1 : a < 1 := lt_trans ha2 (by norm_num)
  obtain ⟨hl, hu⟩ := realAtan2_sqrt_bounds a h0 h1
  have hL : (0.14 / 12742 : ℝ) < √a := by
    apply Real.lt_sqrt_of_sq_lt
    norm_num at ha1 ⊢
    linarith
  have hT : √a / √(1 - a) < (0.1401 / 12742 : ℝ) := by
    rw [← Real.sqrt_div h0.le, Real.sqrt_lt' (by norm_num), div_lt_iff₀ (by linarith)]
    norm_num at ha2 ⊢
    linarith
  constructor
  · norm_num at hL ⊢
    linarith
  · norm_num at hT ⊢
    linarith

end Haversine

/-! ## The distance properties -/

section Distance

/-- Over the reals, the formula of `calculateDistance` gives the same value when its two
points are exchanged. -/
theorem calculateDistance_symmetric (lat1 lon1 lat2 lon2 : ℝ) :
    calculateDistance realLib lat1 lon1 lat2 lon2 =
      calculateDistance realLib lat2 lon2 lat1 lon1 := by
  rw [calculateDistance_real, calculateDistance_real, haversineA_symm]

/-- C9: over the reals, the distance from any point `(x, y)` to itself is zero. -/
theorem calculateDistance_self (x y : ℝ) :
    calculateDistance realLib x y x y = 0 := by
  have ha : haversineA realLib x y x y = 0 := by
    rw [haversineA_real]
    simp
  rw [calculateDistance_real, ha]
  simp [realAtan2]

/-- Over the reals and without any restriction on the four arguments, the haversine term
lies in `[0, 1]`, the angle `c = 2 * atan2(sqrt a, sqrt (1 - a))` lies in `[0, π]`, the
distance lies in `[0, π * 6371]`, and the distance from the first point to its antipode
`(-lat1, lon1 + 180)` is `π * 6371`. -/
theorem calculateDistance_range (lat1 lon1 lat2 lon2 : ℝ) :
    (0 ≤ haversineA realLib lat1 lon1 lat2 lon2 ∧
      haversineA realLib lat1 lon1 lat2 lon2 ≤ 1) ∧
    (0 ≤ 2 * realAtan2 (√(haversineA realLib lat1 lon1 lat2 lon2))
        (√(1 - haversineA realLib lat1 lon1 lat2 lon2)) ∧
      2 * realAtan2 (√(haversineA realLib lat1 lon1 lat2 lon2))
        (√(1 - haversineA realLib lat1 lon1 lat2 lon2)) ≤ Real.pi) ∧
    (0 ≤ calculateDistance realLib lat1 lon1 lat2 lon2 ∧
      calculateDistance realLib lat1 lon1 lat2 lon2 ≤ Real.pi * 6371) ∧
    calculateDistance realLib lat1 lon1 (-lat1) (lon1 + 180) = Real.pi * 6371 := by
  have hq := realAtan2_mem_quadrant
    (√(haversineA realLib lat1 lon1 lat2 lon2))
    (√(1 - haversineA realLib lat1 lon1 lat2 lon2))
    (Real.sqrt_nonneg _) (Real.sqrt_nonneg _)
  refine ⟨haversineA_mem_unit lat1 lon1 lat2 lon2, ⟨by linarith [hq.1], by linarith [hq.2]⟩,
    ⟨?_, ?_⟩, calculateDistance_antipode lat1 lon1⟩
  · rw [calculateDistance_real]; linarith [hq.1]
  · rw [calculateDistance_real]; linarith [hq.2]

/-- C7 (as stated): the distance of the scenario does not round to 0.157 at three
decimals. -/
theorem scenario_distance_not_157 :
    ¬ (round (1000 * calculateDistance realLib 40.0 (-74.0) 40.001 (-74.001)) = 157) := by
  obtain ⟨h1, h2⟩ := scenario_distance_bounds
  rw [round_eq, Int.floor_eq_iff]
  norm_num at h1 h2 ⊢
  intro h
  linarith

/-- C7 (amended): for the input record `("123 Main St", 40.0, -74.0)`, the provider result
`("123 Main Street, City", 0.95, 40.001, -74.001)` and threshold 0.8, `main` emits one
success record and no error record; the record has `Status` `"OK"`, its `Distance` is the
formatted value of `calculateDistance(40.0, -74.0, 40.001, -74.001)`, and over the reals
that value lies between 0.1400 and 0.1401, so it rounds to 0.140 at three decimals. -/
theorem scenario_main_street (Sprintf3 : ℝ → String) :
    ∃ r : dataOut ℝ,
      main realLib Sprintf3 sampleConfig (sampleClient 0.95) [sampleRecord] none =
        some { output := [r], outputErr := [] } ∧
      r.Status = "OK" ∧
      r.Distance = Sprintf3 (calculateDistance realLib 40.0 (-74.0) 40.001 (-74.001)) ∧
      (0.1400 : ℝ) < calculateDistance realLib 40.0 (-74.0) 40.001 (-74.001) ∧
      calculateDistance realLib 40.0 (-74.0) 40.001 (-74.001) < 0.1401 ∧
      round (1000 * calculateDistance realLib 40.0 (-74.0) 40.001 (-74.001)) = 140 := by
  obtain ⟨h1, h2⟩ := scenario_distance_bounds
  have hs : searchPlace (sampleClient 0.95 0) sampleRecord.Text =
      .ok ("123 Main Street, City", 0.95, 40.001, -74.001) := rfl
  have hthr : ¬ ((0.95 : ℝ) < sampleConfig.ConfidenceThreshold) := by
    simp only [sampleConfig]
    norm_num
  have hmain := main_eq realLib Sprintf3 sampleConfig (sampleClient 0.95) [sampleRecord]
  rw [mainLoop,
    loopBody_ok realLib Sprintf3 sampleConfig (sampleClient 0.95) 0 sampleRecord _ _ _ _ _ hs]
    at hmain
  simp only [mainLoop, if_neg hthr, List.nil_append] at hmain
  refine ⟨_, hmain, rfl, rfl, h1, h2, ?_⟩
  rw [round_eq, Int.floor_eq_iff]
  norm_num at h1 h2 ⊢
  constructor <;> linarith

end Distance

/-! ## Runs of the program on binary64 -/

/-- On binary64 the program computes the distance 0.14007098702143483 for the scenario of
`record64` and `result64`, and prints it as `0.140`. -/
theorem scenario_go64_distance :
    calculateDistance go64 40.0 (-74.0) 40.001 (-74.001) = 0.14007098702143483 ∧
      fmt.Sprintf3 (calculateDistance go64 40.0 (-74.0) 40.001 (-74.001)) = "0.140" := by
  decide!

/-- On binary64 the program computes exactly `0` for the distance from `(40.0, -74.0)` to
itself. -/
theorem scenario_go64_self :
    calculateDistance go64 40.0 (-74.0) 40.0 (-74.0) = 0 := by
  decide!

/-- On binary64 the loop on `record64` under a provider that answers `result64` gives the
one success record `mainStreetOut`. -/
theorem scenario_go64_loop (locClient : Nat → SearchCall float64)
    (h : locClient 0 "123 Main St" = .ok [result64]) :
    mainLoop go64 fmt.Sprintf3 config64 locClient none 0 [record64] ⟨[], []⟩ =
      some { output := [mainStreetOut], outputErr := [] } := by
  have hs : searchPlace (locClient 0) record64.Text =
      .ok ("123 Main Street, City", 0.95, 40.001, -74.001) := by
    simp [searchPlace, record64, h, result64]
  rw [mainLoop, loopBody_ok go64 fmt.Sprintf3 config64 locClient 0 record64 _ _ _ _ _ hs]
  simp only [mainLoop, List.nil_append]
  decide!

/-- Every answer of `okClient` is complete. -/
theorem okClient_complete (input : List (dataIn float64)) :
    answersComplete okClient input := by
  intro i v _ r rs h
  simp only [okClient, Except.ok.injEq, List.cons.injEq] at h
  rw [← h.1]
  rfl

/-- Every answer of `thenThrottledClient` is an error or complete. -/
theorem thenThrottledClient_complete (input : List (dataIn float64)) :
    answersComplete thenThrottledClient input := by
  intro i v _ r rs h
  unfold thenThrottledClient at h
  split at h
  · simp only [Except.ok.injEq, List.cons.injEq] at h
    rw [← h.1]
    rfl
  · simp at h

/-- C1 (as stated): under a provider whose result has no `Relevance`, `main` ends by a
panic: there is no run of the loop to its end whose streams hold the one input record. -/
theorem main_panics_without_relevance :
    ¬ ∃ s, main go64 fmt.Sprintf3 config64 noRelevanceClient [record64] none = some s ∧
      s.output.length + s.outputErr.length = [record64].length := by
  have hm : main go64 fmt.Sprintf3 config64 noRelevanceClient [record64] none = none := by
    decide!
  rintro ⟨s, hs, _⟩
  rw [hm] at hs
  cases hs

/-- C1 sample run: two records under a provider with complete answers give two records. -/
theorem main_success_plus_error_eq_input_witness :
    answersComplete okClient [record64, antipodeRecord] ∧
    ∃ s, main go64 fmt.Sprintf3 config64 okClient [record64, antipodeRecord] none = some s ∧
      s.output.length + s.outputErr.length = 2 :=
  ⟨okClient_complete _,
    main_success_plus_error_eq_input go64 fmt.Sprintf3 config64 okClient
      [record64, antipodeRecord] (okClient_complete _)⟩

/-- C2 (as stated): under a provider whose result has no `Relevance`, `main` ends by a
panic: the index 0 of the one input record is in neither stream. -/
theorem index_in_neither_stream :
    ¬ ∃ s, main go64 fmt.Sprintf3 config64 noRelevanceClient [record64] none = some s ∧
      (0 ∈ s.output.map (fun r => r.Index) ∨ 0 ∈ s.outputErr.map (fun e => e.Index)) := by
  have hm : main go64 fmt.Sprintf3 config64 noRelevanceClient [record64] none = none := by
    decide!
  rintro ⟨s, hs, _⟩
  rw [hm] at hs
  cases hs

/-- C2 sample run: a success at position 0 and a failure at position 1 partition the
indices 0 and 1. -/
theorem main_index_partition_witness :
    answersComplete thenThrottledClient [record64, antipodeRecord] ∧
    ∃ s, main go64 fmt.Sprintf3 config64 thenThrottledClient [record64, antipodeRecord] none =
        some s ∧
      List.Disjoint (s.output.map (fun r => r.Index)) (s.outputErr.map (fun e => e.Index)) ∧
      (∀ j, (j ∈ s.output.map (fun r => r.Index) ∨ j ∈ s.outputErr.map (fun e => e.Index)) ↔
        j < 2) ∧
      (∀ j, j < 2 →
        (s.output.map (fun r => r.Index)).count j +
          (s.outputErr.map (fun e => e.Index)).count j = 1) :=
  ⟨thenThrottledClient_complete _,
    main_index_partition go64 fmt.Sprintf3 config64 thenThrottledClient
      [record64, antipodeRecord] (thenThrottledClient_complete _)⟩

/-- C3 (as stated): the call for position 0 succeeds, the answer for position 1 has no
`Relevance`; `main` ends by a panic, so no success stream lists the resolved position 0. -/
theorem resolved_record_in_no_stream :
    resolves thenNoRelevanceClient [record64, record64] 0 = true ∧
    ¬ ∃ s, main go64 fmt.Sprintf3 config64 thenNoRelevanceClient [record64, record64] none =
        some s ∧
      s.output.map (fun r => r.Index) =
        (List.range 2).filter (resolves thenNoRelevanceClient [record64, record64]) := by
  have hm : main go64 fmt.Sprintf3 config64 thenNoRelevanceClient [record64, record64] none =
      none := by
    decide!
  refine ⟨by decide, ?_⟩
  rintro ⟨s, hs, _⟩
  rw [hm] at hs
  cases hs

/-- C3 sample run: a success at position 0 and a failure at position 1 give the index
lists `[0]` and `[1]`. -/
theorem main_streams_in_input_order_witness :
    answersComplete thenThrottledClient [record64, record64] ∧
    ∃ s, main go64 fmt.Sprintf3 config64 thenThrottledClient [record64, record64] none =
        some s ∧
      (s.output.map (fun r => r.Index)).Sorted (· < ·) ∧
      (s.outputErr.map (fun e => e.Index)).Sorted (· < ·) ∧
      s.output.map (fun r => r.Index) =
        (List.range 2).filter (resolves thenThrottledClient [record64, record64]) ∧
      s.outputErr.map (fun e => e.Index) =
        (List.range 2).filter (fails thenThrottledClient [record64, record64]) :=
  ⟨thenThrottledClient_complete _,
    main_streams_in_input_order go64 fmt.Sprintf3 config64 thenThrottledClient
      [record64, record64] (thenThrottledClient_complete _)⟩

/-- C4 sample run, confidence 0.5 under threshold 0.8: the record goes to the success
stream with status `"LOW CONFIDENCE"`. -/
theorem loopBody_status_by_confidence_witness :
    searchPlace (sampleClient 0.5 0) sampleRecord.Text =
        .ok ("123 Main Street, City", 0.5, 40.001, -74.001) ∧
    ∃ r : dataOut ℝ,
      loopBody realLib blankFormatter sampleConfig (sampleClient 0.5) none 0 sampleRecord
          ⟨[], []⟩ = some { output := [r], outputErr := [] } ∧
      r.Status = "LOW CONFIDENCE" := by
  refine ⟨rfl, ?_⟩
  obtain ⟨r, hr, _, _, hlow, _, _⟩ :=
    loopBody_status_by_confidence realLib blankFormatter sampleConfig (sampleClient 0.5) 0
      sampleRecord ⟨[], []⟩ "123 Main Street, City" 0.5 40.001 (-74.001) rfl
  refine ⟨r, by simpa using hr, hlow.mpr ?_⟩
  simp only [sampleConfig]
  norm_num

/-- C5 sample run: after a success at position 0, the call for position 1 fails with
`"ThrottlingException: Rate exceeded"`; `main` ends with the one success record and the one
error record that carries index 1, the record's text and that message. -/
theorem failed_call_appends_one_error_witness :
    mainLoop go64 fmt.Sprintf3 config64 thenThrottledClient none 0 [record64] ⟨[], []⟩ =
      some { output := [mainStreetOut], outputErr := [] } ∧
    thenThrottledClient 1 "123 Main St" = .error "ThrottlingException: Rate exceeded" ∧
    main go64 fmt.Sprintf3 config64 thenThrottledClient [record64, record64] none =
      some
        { output := [mainStreetOut],
          outputErr := [{ Index := 1, Text := "123 Main St",
                          Error := "ThrottlingException: Rate exceeded" }] } :=
  ⟨scenario_go64_loop thenThrottledClient rfl, rfl,
    (failed_call_appends_one_error go64 fmt.Sprintf3 config64 thenThrottledClient [record64]
      record64 [] "ThrottlingException: Rate exceeded" ⟨[mainStreetOut], []⟩
      (scenario_go64_loop thenThrottledClient rfl) (Or.inl rfl)).2.2⟩

/-- C6 (failing input): for the input record `("anti84", -84, -180)` and the provider
result of relevance 0.9 at latitude 84, longitude 0, the program emits one success record
whose `Distance` is the text `NaN`, not a number with three decimals. -/
theorem antipode_record_distance_text :
    main go64 fmt.Sprintf3 config64 antipodeClient [antipodeRecord] none =
      some
        { output := [{ Index := 0, InputText := "anti84", InputLat := -84, InputLong := -180,
                       OutputText := "anti84", OutputLat := 84, OutputLong := 0,
                       Confidence := 0.9, Distance := "NaN", Status := "OK" }],
          outputErr := [] } := by
  decide!

/-- C8 (failing input): between `(-84, -180)` and `(84, 0)` the program computes NaN in
both orders, and Go's `==` between the two results is false. -/
theorem antipode_distance_ne_swapped :
    calculateDistance go64 (-84) (-180) 84 0 = .nan ∧
    calculateDistance go64 84 0 (-84) (-180) = .nan ∧
    (calculateDistance go64 (-84) (-180) 84 0).eq (calculateDistance go64 84 0 (-84) (-180)) =
      false := by
  decide!

/-- C10 (failing input): between `(10, 20)` and its antipode `(-10, 200)` the haversine
term rounds to 1.0000000000000002, so `math.Sqrt(1-a)` is NaN and the distance is NaN:
neither `0 <= d` nor `d <= math.Pi * 6371` holds. -/
theorem antipode_distance_nan :
    haversineA go64 10 20 (-10) 200 = 1.0000000000000002 ∧
    math.Sqrt (1 - haversineA go64 10 20 (-10) 200) = .nan ∧
    calculateDistance go64 10 20 (-10) 200 = .nan ∧
    ¬ (0 ≤ calculateDistance go64 10 20 (-10) 200) ∧
    ¬ (calculateDistance go64 10 20 (-10) 200 ≤ math.Pi * 6371) := by
  decide!

end AlsVerify
